import Mathlib

/-!
Shallow embedding of `langchain_lightningprox` (src/langchain_lightningprox/llm.py).

The repository is a payment-gated request orchestrator: `LightningProxLLM.invoke`
sends a chat request to a Completion Service, and when the response carries a
payment challenge it pays the Lightning invoice through a Settlement Service
(LNBits) and re-sends the request with the charge id as proof of payment.

The two HTTP collaborators are modelled as an oracle `Env`:
`completionService` maps an outbound completion request (headers included) to
the parsed JSON body of the response, and `settlementService` maps an outbound
settlement request to the HTTP status code of the response.  `invoke` is
embedded as a pure function from the orchestrator configuration, the oracle
and the prompt to a result (`Except InvokeError String`) together with the
trace of outbound requests, in the order they are issued.
-/

namespace LightningProx

/-- A chat message, `{"role": ..., "content": ...}` as built in `invoke`. -/
structure ChatMessage where
  role : String
  content : String
  deriving DecidableEq, Repr

/-- One item of a response body's `"content"` list; per the external interface
it carries a `"text"` field. -/
structure ContentItem where
  text : String
  deriving DecidableEq, Repr

/-- The `"payment"` object of a payment-required response:
`{charge_id, payment_request, amount_sats?}`.  `amount_sats` is optional in
the source (`payment.get("amount_sats", "?")`). -/
structure PaymentChallenge where
  charge_id : String
  payment_request : String
  amount_sats : Option Nat
  deriving DecidableEq, Repr

/-- Parsed JSON body returned by the Completion Service.  `content = none`
models a body without a `"content"` key; `content = some []` models
`"content": []`.  Likewise for `payment`. -/
structure ApiResponse where
  content : Option (List ContentItem)
  payment : Option PaymentChallenge
  deriving DecidableEq, Repr

/-- The full outbound completion request built by `_request`: URL, the two
headers (`Content-Type` always, `X-Payment-Hash` only when a payment hash is
supplied), and the JSON payload `{model, max_tokens, messages}`. -/
structure CompletionRequest where
  url : String
  contentType : String
  paymentHash : Option String
  model : String
  max_tokens : Nat
  messages : List ChatMessage
  deriving DecidableEq, Repr

/-- The outbound settlement request built by `_pay_invoice`:
`POST <lnbits_url>/api/v1/payments` with headers `Content-Type` and
`X-Api-Key`, body `{"out": true, "bolt11": payment_request}`. -/
structure SettlementRequest where
  url : String
  contentType : String
  apiKey : String
  outFlag : Bool
  bolt11 : String
  deriving DecidableEq, Repr

/-- An outbound network action performed during one invocation, in order.
`sleepTenths 5` records the `time.sleep(0.5)` grace period before the
confirming re-send. -/
inductive Event where
  | completion (req : CompletionRequest)
  | settlement (req : SettlementRequest)
  | sleepTenths (tenths : Nat)
  deriving DecidableEq, Repr

/-- Oracle for the two external HTTP collaborators.  `completionService`
returns the parsed JSON body; `settlementService` returns the HTTP status
code of the response. -/
structure Env where
  completionService : CompletionRequest → ApiResponse
  settlementService : SettlementRequest → Nat

/-- Errors surfaced by the library.  In the source, `__init__` raises
`ValueError` (the configuration error), `invoke` raises `RuntimeError` for
the payment failure (message formats the attempted amount, `"?"` when
absent) and for the two protocol failures (messages interpolate the raw
offending payload, which the constructors here carry), and an empty
`"content"` list on the no-payment path raises `IndexError` from
`result["content"][0]`. -/
inductive InvokeError where
  | configurationError
  | paymentError (amount_sats : Option Nat)
  | protocolUnexpected (payload : ApiResponse)
  | protocolNoContentAfterPayment (payload : ApiResponse)
  | indexError
  deriving DecidableEq, Repr

deriving instance DecidableEq for Except

/-- Orchestrator configuration, the fields set by `__init__`. -/
structure LightningProxLLM where
  lnbits_url : String
  lnbits_admin_key : String
  model : String
  max_tokens : Nat
  api_url : String
  payment_timeout : Nat
  deriving DecidableEq, Repr

/-- Model of `lnbits_url.rstrip("/")`: drop every trailing slash. -/
def rstripSlash (s : String) : String :=
  s.dropRightWhile (· == '/')

/-- Model of `LightningProxLLM.__init__`.  The admin key argument is optional
(`None` by default); a missing or empty key (Python falsy) raises
`ValueError` before anything else can happen — the constructor performs no
network call.  `none` models an absent `lnbits_admin_key` argument. -/
def LightningProxLLM.init (lnbits_url : String) (lnbits_admin_key : Option String)
    (model : String) (max_tokens : Nat) (api_url : String) (payment_timeout : Nat) :
    Except InvokeError LightningProxLLM :=
  let key := lnbits_admin_key.getD ""
  if key = "" then
    .error .configurationError
  else
    .ok { lnbits_url := rstripSlash lnbits_url
          lnbits_admin_key := key
          model := model
          max_tokens := max_tokens
          api_url := api_url
          payment_timeout := payment_timeout }

/-- Model of `_request`: build the outbound completion request.  Headers are
`Content-Type: application/json`, plus `X-Payment-Hash` when the supplied
payment hash is truthy — the source guards the header with
`if payment_hash:`, so a `None` or empty-string hash adds no header; payload
is `{model, max_tokens, messages}` from the configuration. -/
def LightningProxLLM.request (llm : LightningProxLLM) (messages : List ChatMessage)
    (payment_hash : Option String) : CompletionRequest :=
  { url := llm.api_url
    contentType := "application/json"
    paymentHash := if payment_hash.getD "" = "" then none else payment_hash
    model := llm.model
    max_tokens := llm.max_tokens
    messages := messages }

/-- The settlement request `_pay_invoice` sends to LNBits. -/
def LightningProxLLM.settlementRequest (llm : LightningProxLLM)
    (payment_request : String) : SettlementRequest :=
  { url := llm.lnbits_url ++ "/api/v1/payments"
    contentType := "application/json"
    apiKey := llm.lnbits_admin_key
    outFlag := true
    bolt11 := payment_request }

/-- Model of `requests.Response.ok`: true exactly when the status code is below 400.
`_pay_invoice` returns this flag. -/
def responseOk (status : Nat) : Bool :=
  status < 400

/-- Model of `_pay_invoice`: send the settlement request and report `response.ok`. -/
def LightningProxLLM.pay_invoice (llm : LightningProxLLM) (env : Env)
    (payment_request : String) : Bool × SettlementRequest :=
  let sreq := llm.settlementRequest payment_request
  (responseOk (env.settlementService sreq), sreq)

/-- Model of `result["content"][0]["text"]` on the no-payment path: Python raises
`IndexError` when the list is empty. -/
def firstText (items : List ContentItem) : Except InvokeError String :=
  match items with
  | [] => .error .indexError
  | item :: _ => .ok item.text

/-- The messages list built at the top of `invoke`:
`[{"role": "user", "content": prompt}]`. -/
def userMessages (prompt : String) : List ChatMessage :=
  [{ role := "user", content := prompt }]

/-- Model of `invoke`, embedded with an explicit trace of outbound actions.
Mirrors the source line by line:
request without proof; if `"payment"` is absent, return
`result["content"][0]["text"]` when `"content"` is present, else
`RuntimeError("Unexpected response: ...")`; otherwise extract the challenge,
pay the invoice, fail with `RuntimeError("Payment failed for ... sats")`
when `_pay_invoice` is false, else sleep 0.5 s, re-send with
`X-Payment-Hash = charge_id`, and return the first content text when the
second body has a non-empty `"content"` list, else
`RuntimeError("No response after payment: ...")`. -/
def LightningProxLLM.invoke (llm : LightningProxLLM) (env : Env) (prompt : String) :
    Except InvokeError String × List Event :=
  let messages := userMessages prompt
  let req1 := llm.request messages none
  let result := env.completionService req1
  match result.payment with
  | none =>
    match result.content with
    | some items => (firstText items, [.completion req1])
    | none => (.error (.protocolUnexpected result), [.completion req1])
  | some payment =>
    let charge_id := payment.charge_id
    let sreq := llm.settlementRequest payment.payment_request
    let paid := responseOk (env.settlementService sreq)
    if paid then
      let req2 := llm.request messages (some charge_id)
      let result2 := env.completionService req2
      let trace := [.completion req1, .settlement sreq, .sleepTenths 5, .completion req2]
      match result2.content with
      | some items =>
        if items.length > 0 then
          (firstText items, trace)
        else
          (.error (.protocolNoContentAfterPayment result2), trace)
      | none => (.error (.protocolNoContentAfterPayment result2), trace)
    else
      (.error (.paymentError payment.amount_sats), [.completion req1, .settlement sreq])

/-- The completion requests of a trace, in order. -/
def completionEvents (tr : List Event) : List CompletionRequest :=
  tr.filterMap fun e =>
    match e with
    | .completion req => some req
    | _ => none

/-- The settlement requests of a trace, in order. -/
def settlementEvents (tr : List Event) : List SettlementRequest :=
  tr.filterMap fun e =>
    match e with
    | .settlement req => some req
    | _ => none

/-- The completion requests of a trace that attach a payment proof. -/
def paidCompletionEvents (tr : List Event) : List CompletionRequest :=
  (completionEvents tr).filter fun req => req.paymentHash ≠ none

/-! Concrete fixtures used by witnesses and counterexamples.  `llmW` uses the
default configuration values of `__init__`; `chW` is the payment challenge of
the spec's example scenario. -/

/-- The payment challenge of the spec's example scenario. -/
def chW : PaymentChallenge :=
  { charge_id := "c1", payment_request := "lnbc1", amount_sats := some 5 }

/-- A configured orchestrator with the source's default endpoints. -/
def llmW : LightningProxLLM :=
  { lnbits_url := "https://demo.lnbits.com"
    lnbits_admin_key := "adminkey"
    model := "claude-sonnet-4-20250514"
    max_tokens := 256
    api_url := "https://lightningprox.com/v1/messages"
    payment_timeout := 30 }

/-- Oracle for the happy paid path: the first request gets a pure payment
challenge, settlement returns HTTP 200, the re-send with proof gets content. -/
def envHappy : Env :=
  { completionService := fun req =>
      if req.paymentHash = none then { content := none, payment := some chW }
      else { content := some [{ text := "4" }], payment := none }
    settlementService := fun _ => 200 }

/-- Oracle whose first response carries both a content list and a payment
challenge; the re-send with proof gets different content. -/
def envBoth : Env :=
  { completionService := fun req =>
      if req.paymentHash = none
      then { content := some [{ text := "4" }], payment := some chW }
      else { content := some [{ text := "paid" }], payment := none }
    settlementService := fun _ => 200 }

/-- Oracle that always answers directly with content, never a challenge. -/
def envFree : Env :=
  { completionService := fun _ =>
      { content := some [{ text := "Paris" }], payment := none }
    settlementService := fun _ => 200 }

/-! Theorems, one per claim, in claim order. -/

/-- Claim C1: if the first Completion Service response carries a payment
challenge and no content, the settlement call succeeds (2xx), and the second
response carries a non-empty content list, then `invoke` returns the text of
the first element of the second response's content list, and the Settlement
Service is invoked exactly once, with exactly the challenge's
`payment_request` string. -/
theorem invoke_challenge_settled_returns_second_content
    (llm : LightningProxLLM) (env : Env) (prompt : String) (ch : PaymentChallenge)
    (item : ContentItem) (rest : List ContentItem)
    (h1p : (env.completionService (llm.request (userMessages prompt) none)).payment = some ch)
    (h1c : (env.completionService (llm.request (userMessages prompt) none)).content = none)
    (h2lo : 200 ≤ env.settlementService (llm.settlementRequest ch.payment_request))
    (h2hi : env.settlementService (llm.settlementRequest ch.payment_request) < 300)
    (h3 : (env.completionService (llm.request (userMessages prompt) (some ch.charge_id))).content
          = some (item :: rest)) :
    (llm.invoke env prompt).1 = .ok item.text ∧
    (settlementEvents (llm.invoke env prompt).2).map SettlementRequest.bolt11
      = [ch.payment_request] := by
  have hok : responseOk (env.settlementService (llm.settlementRequest ch.payment_request))
      = true := by
    simp only [responseOk, decide_eq_true_eq]
    omega
  simp [LightningProxLLM.invoke, h1p, hok, h3, firstText, settlementEvents]
  simp [LightningProxLLM.settlementRequest]

/-- Witness for C1, the spec's example scenario: prompt `"2+2?"`, challenge
`chW`, settlement status 200, second response content `[{text: "4"}]`. -/
theorem invoke_challenge_settled_returns_second_content_witness :
    (envHappy.completionService (llmW.request (userMessages "2+2?") none)).payment = some chW ∧
    ((llmW.invoke envHappy "2+2?").1 = .ok "4" ∧
      (settlementEvents (llmW.invoke envHappy "2+2?").2).map SettlementRequest.bolt11
        = ["lnbc1"]) :=
  ⟨by decide,
    invoke_challenge_settled_returns_second_content llmW envHappy "2+2?" chW
      { text := "4" } [] (by decide) (by decide) (by decide) (by decide) (by decide)⟩

/-- Counterexample to claim C2 as stated: the first response of `envBoth`
carries content (first text `"4"`) as well as a payment challenge, yet
`invoke` does not return `"4"` and the Settlement Service is contacted — the
source tests `"payment" not in result` before looking at `"content"`, so the
payment branch wins whenever both keys are present. -/
theorem invoke_content_with_challenge_counterexample :
    (envBoth.completionService (llmW.request (userMessages "2+2?") none)).content
      = some [{ text := "4" }] ∧
    (llmW.invoke envBoth "2+2?").1 = .ok "paid" ∧
    (llmW.invoke envBoth "2+2?").1 ≠ .ok "4" ∧
    settlementEvents (llmW.invoke envBoth "2+2?").2
      = [llmW.settlementRequest "lnbc1"] := by
  decide

/-- Claim C2, amended: if the first response carries a content list with a
first item and no payment challenge, `invoke` returns that first item's text,
the Settlement Service is never contacted, and exactly one completion request
is sent.  (The original claim also covered responses carrying both content
and a challenge; the code pays in that case.) -/
theorem invoke_content_without_challenge_returns_text
    (llm : LightningProxLLM) (env : Env) (prompt : String)
    (item : ContentItem) (rest : List ContentItem)
    (hp : (env.completionService (llm.request (userMessages prompt) none)).payment = none)
    (hc : (env.completionService (llm.request (userMessages prompt) none)).content
          = some (item :: rest)) :
    (llm.invoke env prompt).1 = .ok item.text ∧
    settlementEvents (llm.invoke env prompt).2 = [] ∧
    completionEvents (llm.invoke env prompt).2 = [llm.request (userMessages prompt) none] := by
  simp [LightningProxLLM.invoke, hp, hc, firstText, settlementEvents, completionEvents]

/-- Witness for amended C2: `envFree` answers directly with content
`[{text: "Paris"}]` and no challenge. -/
theorem invoke_content_without_challenge_returns_text_witness :
    (envFree.completionService (llmW.request (userMessages "capital?") none)).payment = none ∧
    ((llmW.invoke envFree "capital?").1 = .ok "Paris" ∧
      settlementEvents (llmW.invoke envFree "capital?").2 = [] ∧
      completionEvents (llmW.invoke envFree "capital?").2
        = [llmW.request (userMessages "capital?") none]) :=
  ⟨by decide,
    invoke_content_without_challenge_returns_text llmW envFree "capital?"
      { text := "Paris" } [] (by decide) (by decide)⟩

/-- Oracle whose settlement endpoint answers HTTP 300 (not 2xx, yet
`response.ok` is true since 300 < 400); completions behave as in `envHappy`. -/
def envRedirect : Env :=
  { completionService := fun req =>
      if req.paymentHash = none then { content := none, payment := some chW }
      else { content := some [{ text := "4" }], payment := none }
    settlementService := fun _ => 300 }

/-- Oracle whose settlement endpoint declines with HTTP 500. -/
def envFail : Env :=
  { completionService := fun req =>
      if req.paymentHash = none then { content := none, payment := some chW }
      else { content := some [{ text := "late" }], payment := none }
    settlementService := fun _ => 500 }

/-- Counterexample to claim C3 as stated: the Settlement Service answers
HTTP 300 — not in the 2xx range — yet the flow proceeds to the confirming
re-send (two completion requests) and returns content instead of failing
with a PaymentError, because `_pay_invoice` returns `response.ok`, which is
`status < 400`. -/
theorem settlement_non_2xx_success_counterexample :
    envRedirect.settlementService (llmW.settlementRequest "lnbc1") = 300 ∧
    (llmW.invoke envRedirect "2+2?").1 = .ok "4" ∧
    (completionEvents (llmW.invoke envRedirect "2+2?").2).length = 2 := by
  decide

/-- Claim C3, amended: the settlement attempt is treated as successful if and
only if the Settlement Service's HTTP status code is below 400 (the semantics
of `requests.Response.ok`): for every status < 400 — which includes every
2xx, but also 1xx and 3xx — the flow proceeds to the confirming re-send, and
for every status ≥ 400 the invocation fails with a PaymentError. -/
theorem settlement_success_iff_status_below_400
    (llm : LightningProxLLM) (env : Env) (prompt : String) (ch : PaymentChallenge)
    (h1p : (env.completionService (llm.request (userMessages prompt) none)).payment = some ch) :
    (env.settlementService (llm.settlementRequest ch.payment_request) < 400 →
      (completionEvents (llm.invoke env prompt).2).length = 2) ∧
    (400 ≤ env.settlementService (llm.settlementRequest ch.payment_request) →
      (llm.invoke env prompt).1 = .error (.paymentError ch.amount_sats) ∧
      (completionEvents (llm.invoke env prompt).2).length = 1) := by
  constructor
  · intro h
    have hok : responseOk (env.settlementService (llm.settlementRequest ch.payment_request))
        = true := by
      simp only [responseOk, decide_eq_true_eq]
      omega
    rcases hc : (env.completionService
        (llm.request (userMessages prompt) (some ch.charge_id))).content with _ | items
    · simp [LightningProxLLM.invoke, h1p, hok, hc, completionEvents]
    · rcases items with _ | ⟨it, rest⟩
      · simp [LightningProxLLM.invoke, h1p, hok, hc, completionEvents]
      · simp [LightningProxLLM.invoke, h1p, hok, hc, completionEvents, firstText]
  · intro h
    have hok : responseOk (env.settlementService (llm.settlementRequest ch.payment_request))
        = false := by
      simp only [responseOk, decide_eq_false_iff_not]
      omega
    simp [LightningProxLLM.invoke, h1p, hok, completionEvents]

/-- Witness for amended C3, exercising both directions: status 300 proceeds
to the re-send, status 500 fails with the PaymentError carrying 5 sats. -/
theorem settlement_success_iff_status_below_400_witness :
    (envRedirect.completionService (llmW.request (userMessages "2+2?") none)).payment = some chW ∧
    (completionEvents (llmW.invoke envRedirect "2+2?").2).length = 2 ∧
    ((llmW.invoke envFail "2+2?").1 = .error (.paymentError (some 5)) ∧
      (completionEvents (llmW.invoke envFail "2+2?").2).length = 1) :=
  ⟨by decide,
    (settlement_success_iff_status_below_400 llmW envRedirect "2+2?" chW (by decide)).1
      (by decide),
    (settlement_success_iff_status_below_400 llmW envFail "2+2?" chW (by decide)).2
      (by decide)⟩

/-- Claim C4: if the first response is a payment challenge and the settlement
attempt fails (status ≥ 400), `invoke` fails with a PaymentError carrying the
challenge's `amount_sats` (the attempted amount, when supplied; `"?"` is
rendered when absent), and the trace ends at the settlement request — the
Completion Service is never sent a second request with payment proof. -/
theorem invoke_settlement_failure_payment_error
    (llm : LightningProxLLM) (env : Env) (prompt : String) (ch : PaymentChallenge)
    (h1p : (env.completionService (llm.request (userMessages prompt) none)).payment = some ch)
    (h2 : 400 ≤ env.settlementService (llm.settlementRequest ch.payment_request)) :
    (llm.invoke env prompt).1 = .error (.paymentError ch.amount_sats) ∧
    (llm.invoke env prompt).2
      = [.completion (llm.request (userMessages prompt) none),
         .settlement (llm.settlementRequest ch.payment_request)] := by
  have hok : responseOk (env.settlementService (llm.settlementRequest ch.payment_request))
      = false := by
    simp only [responseOk, decide_eq_false_iff_not]
    omega
  simp [LightningProxLLM.invoke, h1p, hok]

/-- Witness for C4: `envFail` declines settlement with HTTP 500; the error
carries the challenge's 5 sats and no second completion request is sent. -/
theorem invoke_settlement_failure_payment_error_witness :
    (envFail.completionService (llmW.request (userMessages "2+2?") none)).payment = some chW ∧
    400 ≤ envFail.settlementService (llmW.settlementRequest chW.payment_request) ∧
    ((llmW.invoke envFail "2+2?").1 = .error (.paymentError (some 5)) ∧
      (llmW.invoke envFail "2+2?").2
        = [.completion (llmW.request (userMessages "2+2?") none),
           .settlement (llmW.settlementRequest "lnbc1")]) :=
  ⟨by decide, by decide,
    invoke_settlement_failure_payment_error llmW envFail "2+2?" chW (by decide) (by decide)⟩

/-- Oracle where the challenge settles (HTTP 200) but the post-payment
response carries no content key at all. -/
def envNoAfter : Env :=
  { completionService := fun req =>
      if req.paymentHash = none then { content := none, payment := some chW }
      else { content := none, payment := none }
    settlementService := fun _ => 200 }

/-- Claim C5: if a payment challenge was settled successfully but the second
(post-payment) response lacks a non-empty content list — no `"content"` key,
or an empty list — `invoke` fails with a ProtocolError carrying the offending
payload, and the settlement trace holds exactly the one settlement request,
so no second settlement attempt is made. -/
theorem invoke_no_content_after_payment_protocol_error
    (llm : LightningProxLLM) (env : Env) (prompt : String) (ch : PaymentChallenge)
    (h1p : (env.completionService (llm.request (userMessages prompt) none)).payment = some ch)
    (h2 : env.settlementService (llm.settlementRequest ch.payment_request) < 400)
    (h3 : (env.completionService (llm.request (userMessages prompt) (some ch.charge_id))).content
            = none ∨
          (env.completionService (llm.request (userMessages prompt) (some ch.charge_id))).content
            = some []) :
    (llm.invoke env prompt).1
      = .error (.protocolNoContentAfterPayment
          (env.completionService (llm.request (userMessages prompt) (some ch.charge_id)))) ∧
    settlementEvents (llm.invoke env prompt).2 = [llm.settlementRequest ch.payment_request] := by
  have hok : responseOk (env.settlementService (llm.settlementRequest ch.payment_request))
      = true := by
    simp only [responseOk, decide_eq_true_eq]
    omega
  rcases h3 with h3 | h3 <;>
    simp [LightningProxLLM.invoke, h1p, hok, h3, settlementEvents]

/-- Witness for C5: `envNoAfter` settles at HTTP 200 but answers the
confirming re-send with a body that has no content. -/
theorem invoke_no_content_after_payment_protocol_error_witness :
    (envNoAfter.completionService (llmW.request (userMessages "2+2?") none)).payment = some chW ∧
    envNoAfter.settlementService (llmW.settlementRequest chW.payment_request) < 400 ∧
    ((llmW.invoke envNoAfter "2+2?").1
        = .error (.protocolNoContentAfterPayment { content := none, payment := none }) ∧
      settlementEvents (llmW.invoke envNoAfter "2+2?").2
        = [llmW.settlementRequest "lnbc1"]) :=
  ⟨by decide, by decide,
    invoke_no_content_after_payment_protocol_error llmW envNoAfter "2+2?" chW
      (by decide) (by decide) (Or.inl (by decide))⟩

/-- A payment challenge whose charge id is the empty string — a legal opaque
token, but Python-falsy, so `_request` adds no `X-Payment-Hash` header. -/
def chEmptyId : PaymentChallenge :=
  { charge_id := "", payment_request := "lnbc2", amount_sats := none }

/-- Oracle that always answers with the empty-charge-id challenge; since the
re-send carries no header, both completion requests are identical anyway. -/
def envEmptyCharge : Env :=
  { completionService := fun _ => { content := none, payment := some chEmptyId }
    settlementService := fun _ => 200 }

/-- Counterexample to claim C6 as stated: with a challenge whose `charge_id`
is the empty string, the settlement succeeds and a second completion request
is sent, but — because `_request` guards the header with the truthiness test
`if payment_hash:` — it carries no `X-Payment-Hash` header at all: it is
fully identical to the first request, not the first request with one added
header carrying the challenge's `charge_id`. -/
theorem second_request_empty_charge_id_counterexample :
    (envEmptyCharge.completionService (llmW.request (userMessages "2+2?") none)).payment
      = some chEmptyId ∧
    completionEvents (llmW.invoke envEmptyCharge "2+2?").2
      = [llmW.request (userMessages "2+2?") none, llmW.request (userMessages "2+2?") none] ∧
    llmW.request (userMessages "2+2?") none
      ≠ { llmW.request (userMessages "2+2?") none with
            paymentHash := some chEmptyId.charge_id } := by
  decide

/-- Claim C6, amended: whenever the second completion request is sent, it is
identical to the first in every component — same URL, same Content-Type
header, same model, same max_tokens, same messages — except possibly the
`X-Payment-Hash` header: when the challenge's `charge_id` is non-empty, the
second request adds that one header carrying the `charge_id`; when the
`charge_id` is the empty string (Python-falsy), no header is added and the
second request is fully identical to the first. -/
theorem second_request_identical_except_payment_hash
    (llm : LightningProxLLM) (env : Env) (prompt : String) (ch : PaymentChallenge)
    (h1p : (env.completionService (llm.request (userMessages prompt) none)).payment = some ch)
    (h2 : env.settlementService (llm.settlementRequest ch.payment_request) < 400) :
    completionEvents (llm.invoke env prompt).2
      = [llm.request (userMessages prompt) none,
         { llm.request (userMessages prompt) none with
             paymentHash := if ch.charge_id = "" then none else some ch.charge_id }] ∧
    (llm.request (userMessages prompt) none).paymentHash = none := by
  have hok : responseOk (env.settlementService (llm.settlementRequest ch.payment_request))
      = true := by
    simp only [responseOk, decide_eq_true_eq]
    omega
  rcases hc : (env.completionService
      (llm.request (userMessages prompt) (some ch.charge_id))).content with _ | items
  · simp [LightningProxLLM.invoke, h1p, hok, hc, completionEvents]
    simp [LightningProxLLM.request]
  · rcases items with _ | ⟨it, rest⟩
    · simp [LightningProxLLM.invoke, h1p, hok, hc, completionEvents]
      simp [LightningProxLLM.request]
    · simp [LightningProxLLM.invoke, h1p, hok, hc, completionEvents, firstText]
      simp [LightningProxLLM.request]

/-- Witness for amended C6 on the happy-path oracle: the challenge's charge
id `"c1"` is non-empty, so the two completion requests sent differ only in
the payment-hash header, which carries `"c1"`. -/
theorem second_request_identical_except_payment_hash_witness :
    (envHappy.completionService (llmW.request (userMessages "2+2?") none)).payment = some chW ∧
    envHappy.settlementService (llmW.settlementRequest chW.payment_request) < 400 ∧
    (if chW.charge_id = "" then (none : Option String) else some chW.charge_id) = some "c1" ∧
    (completionEvents (llmW.invoke envHappy "2+2?").2
        = [llmW.request (userMessages "2+2?") none,
           { llmW.request (userMessages "2+2?") none with
               paymentHash := if chW.charge_id = "" then none else some chW.charge_id }] ∧
      (llmW.request (userMessages "2+2?") none).paymentHash = none) :=
  ⟨by decide, by decide, by decide,
    second_request_identical_except_payment_hash llmW envHappy "2+2?" chW
      (by decide) (by decide)⟩

/-- Helper: every execution of `invoke` produces one of exactly three traces:
the single unpaid completion request; that request followed by a failed
settlement; or request, successful settlement, grace-period sleep, and the
confirming re-send carrying the challenge's charge id. -/
theorem invoke_trace_cases (llm : LightningProxLLM) (env : Env) (prompt : String) :
    (llm.invoke env prompt).2 = [.completion (llm.request (userMessages prompt) none)] ∨
    (∃ ch : PaymentChallenge,
      (env.completionService (llm.request (userMessages prompt) none)).payment = some ch ∧
      responseOk (env.settlementService (llm.settlementRequest ch.payment_request)) = false ∧
      (llm.invoke env prompt).2
        = [.completion (llm.request (userMessages prompt) none),
           .settlement (llm.settlementRequest ch.payment_request)]) ∨
    (∃ ch : PaymentChallenge,
      (env.completionService (llm.request (userMessages prompt) none)).payment = some ch ∧
      responseOk (env.settlementService (llm.settlementRequest ch.payment_request)) = true ∧
      (llm.invoke env prompt).2
        = [.completion (llm.request (userMessages prompt) none),
           .settlement (llm.settlementRequest ch.payment_request),
           .sleepTenths 5,
           .completion (llm.request (userMessages prompt) (some ch.charge_id))]) := by
  rcases hp : (env.completionService (llm.request (userMessages prompt) none)).payment with _ | ch
  · left
    rcases hc : (env.completionService (llm.request (userMessages prompt) none)).content
        with _ | items
    · simp [LightningProxLLM.invoke, hp, hc]
    · simp [LightningProxLLM.invoke, hp, hc]
  · cases hok : responseOk (env.settlementService (llm.settlementRequest ch.payment_request))
    · right; left
      exact ⟨ch, rfl, hok, by simp [LightningProxLLM.invoke, hp, hok]⟩
    · right; right
      refine ⟨ch, rfl, hok, ?_⟩
      rcases hc2 : (env.completionService
          (llm.request (userMessages prompt) (some ch.charge_id))).content with _ | items
      · simp [LightningProxLLM.invoke, hp, hok, hc2]
      · rcases items with _ | ⟨it, rest⟩ <;>
          simp [LightningProxLLM.invoke, hp, hok, hc2, firstText]

/-- Claim C7: every execution of `invoke` sends at most two completion
requests and at most one settlement request; at most one completion request
carries a payment proof, and any completion request carrying a proof does so
with the first response's challenge's `charge_id`, only after the settlement
request for that challenge's invoice reported success, and as the final
action of the trace — proof is never sent speculatively and no challenge is
paid twice. -/
theorem invoke_side_effect_invariants (llm : LightningProxLLM) (env : Env) (prompt : String) :
    (completionEvents (llm.invoke env prompt).2).length ≤ 2 ∧
    (settlementEvents (llm.invoke env prompt).2).length ≤ 1 ∧
    (paidCompletionEvents (llm.invoke env prompt).2).length ≤ 1 ∧
    (∀ req : CompletionRequest, Event.completion req ∈ (llm.invoke env prompt).2 →
      req.paymentHash ≠ none →
      ∃ ch : PaymentChallenge,
        (env.completionService (llm.request (userMessages prompt) none)).payment = some ch ∧
        req.paymentHash = some ch.charge_id ∧
        responseOk (env.settlementService (llm.settlementRequest ch.payment_request)) = true ∧
        (llm.invoke env prompt).2
          = [.completion (llm.request (userMessages prompt) none),
             .settlement (llm.settlementRequest ch.payment_request),
             .sleepTenths 5, .completion req]) := by
  rcases invoke_trace_cases llm env prompt with htr | ⟨ch, hch, hok, htr⟩ | ⟨ch, hch, hok, htr⟩
  · refine ⟨?_, ?_, ?_, ?_⟩
    · simp [htr, completionEvents]
    · simp [htr, settlementEvents]
    · simp [htr, paidCompletionEvents, completionEvents, LightningProxLLM.request]
    · intro req hmem hhash
      rw [htr] at hmem
      simp at hmem
      rw [hmem] at hhash
      simp [LightningProxLLM.request] at hhash
  · refine ⟨?_, ?_, ?_, ?_⟩
    · simp [htr, completionEvents]
    · simp [htr, settlementEvents]
    · simp [htr, paidCompletionEvents, completionEvents, LightningProxLLM.request]
    · intro req hmem hhash
      rw [htr] at hmem
      simp at hmem
      rw [hmem] at hhash
      simp [LightningProxLLM.request] at hhash
  · refine ⟨?_, ?_, ?_, ?_⟩
    · simp [htr, completionEvents]
    · simp [htr, settlementEvents]
    · by_cases hcid : ch.charge_id = "" <;>
        simp [htr, paidCompletionEvents, completionEvents, LightningProxLLM.request, hcid]
    · intro req hmem hhash
      rw [htr] at hmem
      simp at hmem
      rcases hmem with hmem | hmem
      · rw [hmem] at hhash
        simp [LightningProxLLM.request] at hhash
      · by_cases hcid : ch.charge_id = ""
        · rw [hmem] at hhash
          simp [LightningProxLLM.request, hcid] at hhash
        · subst hmem
          exact ⟨ch, hch, by simp [LightningProxLLM.request, hcid], hok, htr⟩

/-- Witness for C7 on the happy-path oracle: the three effect bounds hold at
the concrete run. -/
theorem invoke_side_effect_invariants_witness :
    (completionEvents (llmW.invoke envHappy "2+2?").2).length ≤ 2 ∧
    (settlementEvents (llmW.invoke envHappy "2+2?").2).length ≤ 1 ∧
    (paidCompletionEvents (llmW.invoke envHappy "2+2?").2).length ≤ 1 :=
  ⟨(invoke_side_effect_invariants llmW envHappy "2+2?").1,
    (invoke_side_effect_invariants llmW envHappy "2+2?").2.1,
    (invoke_side_effect_invariants llmW envHappy "2+2?").2.2.1⟩

/-- Claim C8: `__init__` with no `lnbits_admin_key` always fails with the
configuration error (and the constructor performs no network call: it is not
given access to either service); on any constructed instance, no invocation
ever surfaces a configuration error. -/
theorem init_missing_key_configuration_error :
    (∀ (u m a : String) (mt t : Nat),
      LightningProxLLM.init u none m mt a t = .error .configurationError) ∧
    (∀ (llm : LightningProxLLM) (env : Env) (prompt : String),
      (llm.invoke env prompt).1 ≠ .error .configurationError) := by
  constructor
  · intro u m a mt t
    simp [LightningProxLLM.init]
  · intro llm env prompt
    rcases hp : (env.completionService (llm.request (userMessages prompt) none)).payment
        with _ | ch
    · rcases hc : (env.completionService (llm.request (userMessages prompt) none)).content
          with _ | items
      · simp [LightningProxLLM.invoke, hp, hc]
      · rcases items with _ | ⟨it, rest⟩ <;>
          simp [LightningProxLLM.invoke, hp, hc, firstText]
    · cases hok : responseOk (env.settlementService (llm.settlementRequest ch.payment_request))
      · simp [LightningProxLLM.invoke, hp, hok]
      · rcases hc2 : (env.completionService
            (llm.request (userMessages prompt) (some ch.charge_id))).content with _ | items
        · simp [LightningProxLLM.invoke, hp, hok, hc2]
        · rcases items with _ | ⟨it, rest⟩ <;>
            simp [LightningProxLLM.invoke, hp, hok, hc2, firstText]

/-- Witness for C8 at the source's default configuration values. -/
theorem init_missing_key_configuration_error_witness :
    LightningProxLLM.init "https://demo.lnbits.com" none "claude-sonnet-4-20250514" 256
        "https://lightningprox.com/v1/messages" 30 = .error .configurationError ∧
    (llmW.invoke envHappy "2+2?").1 ≠ .error .configurationError :=
  ⟨init_missing_key_configuration_error.1 "https://demo.lnbits.com"
      "claude-sonnet-4-20250514" "https://lightningprox.com/v1/messages" 256 30,
    init_missing_key_configuration_error.2 llmW envHappy "2+2?"⟩

/-- Oracle whose response carries neither a content key nor a payment key. -/
def envShape : Env :=
  { completionService := fun _ => { content := none, payment := none }
    settlementService := fun _ => 200 }

/-- Claim C9: if the first response carries neither content nor a payment
challenge, `invoke` fails with the unexpected-shape ProtocolError carrying
the raw offending payload, and the trace holds only the one completion
request — no settlement attempt and no second completion request. -/
theorem invoke_unexpected_shape_protocol_error
    (llm : LightningProxLLM) (env : Env) (prompt : String)
    (hp : (env.completionService (llm.request (userMessages prompt) none)).payment = none)
    (hc : (env.completionService (llm.request (userMessages prompt) none)).content = none) :
    (llm.invoke env prompt).1
      = .error (.protocolUnexpected
          (env.completionService (llm.request (userMessages prompt) none))) ∧
    (llm.invoke env prompt).2 = [.completion (llm.request (userMessages prompt) none)] := by
  simp [LightningProxLLM.invoke, hp, hc]

/-- Witness for C9: `envShape` answers with an empty JSON object. -/
theorem invoke_unexpected_shape_protocol_error_witness :
    (envShape.completionService (llmW.request (userMessages "2+2?") none)).payment = none ∧
    (envShape.completionService (llmW.request (userMessages "2+2?") none)).content = none ∧
    ((llmW.invoke envShape "2+2?").1
        = .error (.protocolUnexpected { content := none, payment := none }) ∧
      (llmW.invoke envShape "2+2?").2
        = [.completion (llmW.request (userMessages "2+2?") none)]) :=
  ⟨by decide, by decide,
    invoke_unexpected_shape_protocol_error llmW envShape "2+2?" (by decide) (by decide)⟩

/-- Oracle whose response carries an empty content list and no payment key. -/
def envEmptyContent : Env :=
  { completionService := fun _ => { content := some [], payment := none }
    settlementService := fun _ => 200 }

/-- Claim C10: if the first response carries a content key with an empty list
and no payment key, `invoke` fails with the out-of-bounds indexing error from
`result["content"][0]` — a distinct constructor from the configuration,
payment, and protocol error kinds — because the non-emptiness check guarding
the second response is not applied to the first; only the one completion
request is sent. -/
theorem invoke_empty_first_content_index_error
    (llm : LightningProxLLM) (env : Env) (prompt : String)
    (hp : (env.completionService (llm.request (userMessages prompt) none)).payment = none)
    (hc : (env.completionService (llm.request (userMessages prompt) none)).content = some []) :
    (llm.invoke env prompt).1 = .error .indexError ∧
    (llm.invoke env prompt).2 = [.completion (llm.request (userMessages prompt) none)] := by
  simp [LightningProxLLM.invoke, hp, hc, firstText]

/-- Witness for C10: `envEmptyContent` answers with `content: []`. -/
theorem invoke_empty_first_content_index_error_witness :
    (envEmptyContent.completionService (llmW.request (userMessages "2+2?") none)).payment
      = none ∧
    (envEmptyContent.completionService (llmW.request (userMessages "2+2?") none)).content
      = some [] ∧
    ((llmW.invoke envEmptyContent "2+2?").1 = .error .indexError ∧
      (llmW.invoke envEmptyContent "2+2?").2
        = [.completion (llmW.request (userMessages "2+2?") none)]) :=
  ⟨by decide, by decide,
    invoke_empty_first_content_index_error llmW envEmptyContent "2+2?" (by decide) (by decide)⟩

end LightningProx
